import Mathlib

/-!
Verification development for the DXF structural-diff pipeline of
`utils/compare_dxf.py`.

The embedding has two layers.

The rational layer models the tolerance model, coordinate quantization,
entity signatures, fingerprint hashing, the diff set algebra, the output
renderer and the orchestrator.  Python floats and the 50-digit `Decimal`
arithmetic are modelled as exact rationals; `Decimal.quantize` and Python
`round` both round half to even, which is modelled by `roundHalfEven`.

The real layer models the 4x4 affine-transform pipeline
(`create_transformation_matrix`, `transform_point`,
`extract_scale_factors`, `transform_entity_to_absolute`,
`expand_insert_entities`), where trigonometric functions force the use
of real numbers.
-/

/-- Round half to even, the rounding used both by `Decimal.quantize`
(default context rounding `ROUND_HALF_EVEN`) and by the Python built-in
`round` in the fallback branch of `normalize_coordinate_precise`. -/
def roundHalfEven (q : ℚ) : ℤ :=
  if q - ⌊q⌋ < 1/2 then ⌊q⌋
  else if 1/2 < q - ⌊q⌋ then ⌊q⌋ + 1
  else if ⌊q⌋ % 2 = 0 then ⌊q⌋ else ⌊q⌋ + 1

/-- Python `a % b` for rationals with a positive modulus
(used for `rotation % (2 * math.pi)`). -/
def qmod (a b : ℚ) : ℚ := a - b * ⌊a / b⌋

/-- The value of `math.pi`, a fixed rational since Python floats are
dyadic rationals; the shortest decimal rendering of that double is used
as the exact model value. -/
def piQ : ℚ := 3.141592653589793

/-- `math.radians`: degrees to radians using the `math.pi` constant. -/
def radiansQ (x : ℚ) : ℚ := x * piQ / 180

/-- Deterministic rendering of a rational, standing in for Python `repr`
of a float inside f-strings.  Like `repr` on distinct floats it is
injective: a reduced numerator/denominator pair determines the value. -/
def fmtQ (q : ℚ) : String := toString q.num ++ "d" ++ toString q.den

/-- Rendering of a Python 2-tuple of numbers. -/
def fmtV2 (v : ℚ × ℚ) : String := "(" ++ fmtQ v.1 ++ ", " ++ fmtQ v.2 ++ ")"

/-- Rendering of a Python 3-tuple of numbers. -/
def fmtV3 (v : ℚ × ℚ × ℚ) : String :=
  "(" ++ fmtQ v.1 ++ ", " ++ fmtQ v.2.1 ++ ", " ++ fmtQ v.2.2 ++ ")"

/-- Rendering of a Python list of 2-tuples. -/
def fmtVList (l : List (ℚ × ℚ)) : String :=
  "[" ++ String.intercalate ", " (l.map fmtV2) ++ "]"

/-- Python `sep.join(parts)`. -/
def pyJoin (sep : String) : List String → String
  | [] => ""
  | x :: xs => xs.foldl (fun acc y => acc ++ sep ++ y) x

/-- Python substring containment `pat in s`. -/
def containsSub (s pat : String) : Bool := (s.splitOn pat).length ≠ 1

/-- Modelled from the spec: `fingerprint(signature)` is "a cryptographic
hash of the UTF-8 signature string" computed by the external `hashlib`
library, which is not part of this repository.  It is modelled as a
deterministic injective encoding of the string content; the development
relies only on it being a function of its input (and, in concrete
counterexamples, on its values at distinct short strings differing,
which holds for SHA-256 as well). -/
def sha256hex (s : String) : String :=
  s.toList.foldr (fun c acc => toString c.toNat ++ "x" ++ acc) ""

/-- `ToleranceConfig.__init__`: the derived tolerances of the tolerance
model (`compare_dxf.py` lines 21-30). -/
structure ToleranceConfig where
  base_tolerance : ℚ
  coordinate_tolerance : ℚ
  connection_tolerance : ℚ
  text_position_tolerance : ℚ
  angle_tolerance : ℚ
  length_tolerance : ℚ
deriving DecidableEq

/-- Constructor matching `ToleranceConfig.__init__(base_tolerance)`. -/
def ToleranceConfig.ofBase (t : ℚ) : ToleranceConfig :=
  { base_tolerance := t
    coordinate_tolerance := t
    connection_tolerance := t * (1/10)
    text_position_tolerance := t * 2
    angle_tolerance := 1/10
    length_tolerance := t }

/-- Python `attribute and "connection" in attribute.lower()` style test:
false for a missing attribute name. -/
def attrNameHas (attrName : Option String) (pat : String) : Bool :=
  match attrName with
  | some a => containsSub a pat
  | none => false

/-- `ToleranceConfig.get_tolerance_for_entity` (lines 32-41). -/
def get_tolerance_for_entity (cfg : ToleranceConfig) (entity_type : String)
    (attrName : Option String) : ℚ :=
  if entity_type = "TEXT" ∨ entity_type = "MTEXT" ∨ entity_type = "ATTRIB" then
    cfg.text_position_tolerance
  else if entity_type = "POINT" ∨ attrNameHas (attrName.map String.toLower) "connection" then
    cfg.connection_tolerance
  else if attrNameHas attrName "angle" ∨ attrNameHas attrName "rotation" then
    cfg.angle_tolerance
  else
    cfg.coordinate_tolerance

/-- `CoordinateTransformer.normalize_coordinate_precise` (lines 51-62):
for a positive tolerance, divide by the tolerance, round half to even,
multiply back.  The `Decimal` path (50 significant digits) and the
float fallback `round(value / tolerance) * tolerance` implement the same
half-even rounding; both are modelled by exact rational arithmetic. -/
def normalize_coordinate_precise (value tolerance : ℚ) : ℚ :=
  if tolerance ≤ 0 then value
  else (roundHalfEven (value / tolerance) : ℚ) * tolerance

/-- `normalize_coordinate_with_context` applied to a 3-tuple:
the tolerance is looked up for the entity type with no attribute
name, then applied componentwise. -/
def normalize_with_context3 (cfg : ToleranceConfig) (entity_type : String)
    (v : ℚ × ℚ × ℚ) : ℚ × ℚ × ℚ :=
  let tol := get_tolerance_for_entity cfg entity_type none
  (normalize_coordinate_precise v.1 tol,
   normalize_coordinate_precise v.2.1 tol,
   normalize_coordinate_precise v.2.2 tol)

/-- `normalize_coordinate_with_context` applied to a 2-tuple. -/
def normalize_with_context2 (cfg : ToleranceConfig) (entity_type : String)
    (v : ℚ × ℚ) : ℚ × ℚ :=
  let tol := get_tolerance_for_entity cfg entity_type none
  (normalize_coordinate_precise v.1 tol,
   normalize_coordinate_precise v.2 tol)

/-- A Python value stored where a string is expected.  `str` is an
actual string; `notStr` stands for any non-string, truthy value, whose
`.strip()` call raises `AttributeError`.  This is the modelled
entity-level failure channel of the signature builder. -/
inductive PyVal where
  | str (s : String)
  | notStr
deriving DecidableEq

/-- A 3D point, a Python 3-tuple of floats. -/
abbrev Vec3 : Type := ℚ × ℚ × ℚ

/-- The `insert_info` provenance dictionary attached by
`expand_insert_entities`; the signature builder reads only
`insert_point` and the location label only `block_name`. -/
structure InsertInfo where
  block_name : String
  insert_point : Vec3
deriving DecidableEq

/-- An absolute-coordinate entity record, the dictionary produced by
`EntityExpander.transform_entity_to_absolute` and consumed by the
signature generator, diff analyzer and output generator.  The dynamic
attribute dictionary is modelled by typed optional fields, one per
attribute the pipeline reads; `endp` stands for the source attribute
named `end` (a Lean keyword). -/
structure AbsoluteEntity where
  dxftype : String
  insert : Option Vec3 := none
  center : Option Vec3 := none
  start : Option Vec3 := none
  endp : Option Vec3 := none
  location : Option Vec3 := none
  vertices : Option (List (ℚ × ℚ)) := none
  radius : Option ℚ := none
  height : Option ℚ := none
  start_angle : Option ℚ := none
  end_angle : Option ℚ := none
  rotation : Option ℚ := none
  layer : Option String := none
  color : Option ℤ := none
  style : Option String := none
  text_content : Option PyVal := none
  attrib_tag : Option String := none
  insert_info : Option InsertInfo := none
  is_direct_modelspace : Bool := false
  is_transformed : Bool := true
  scale_factors : Option Vec3 := none
deriving DecidableEq

/-- The primary position of an entity: the first present attribute
among `insert`, `center`, `start`, `location`
(`create_absolute_entity_signature` lines 373-377). -/
def primaryPosition (e : AbsoluteEntity) : Option Vec3 :=
  e.insert.or (e.center.or (e.start.or e.location))

/-- `SignatureGenerator._add_important_attributes` (lines 416-442):
appends the whitelisted attributes `layer`, `color`, `height`,
`radius`, `start_angle`, `end_angle` (numeric values quantized, with
doubled tolerance for `height`/`radius` when scale factors are
recorded), then the rotation normalized into `[0, 2*pi)` and quantized
at the angle tolerance converted to radians. -/
def add_important_attributes (cfg : ToleranceConfig) (e : AbsoluteEntity)
    (parts : List String) : List String :=
  let et := e.dxftype
  let p1 := match e.layer with
    | some l => parts ++ ["layer_" ++ l]
    | none => parts
  let p2 := match e.color with
    | some c =>
        let tol := get_tolerance_for_entity cfg et (some "color")
        p1 ++ ["color_" ++ fmtQ (normalize_coordinate_precise (c : ℚ) tol)]
    | none => p1
  let p3 := match e.height with
    | some h =>
        let tol := (get_tolerance_for_entity cfg et (some "height")) *
          (if e.scale_factors.isSome then 2 else 1)
        p2 ++ ["height_" ++ fmtQ (normalize_coordinate_precise h tol)]
    | none => p2
  let p4 := match e.radius with
    | some r =>
        let tol := (get_tolerance_for_entity cfg et (some "radius")) *
          (if e.scale_factors.isSome then 2 else 1)
        p3 ++ ["radius_" ++ fmtQ (normalize_coordinate_precise r tol)]
    | none => p3
  let p5 := match e.start_angle with
    | some a =>
        let tol := get_tolerance_for_entity cfg et (some "start_angle")
        p4 ++ ["start_angle_" ++ fmtQ (normalize_coordinate_precise a tol)]
    | none => p4
  let p6 := match e.end_angle with
    | some a =>
        let tol := get_tolerance_for_entity cfg et (some "end_angle")
        p5 ++ ["end_angle_" ++ fmtQ (normalize_coordinate_precise a tol)]
    | none => p5
  match e.rotation with
  | some r =>
      let nr := qmod r (2 * piQ)
      let nr2 := normalize_coordinate_precise nr (radiansQ cfg.angle_tolerance)
      p6 ++ ["rotation_" ++ fmtQ nr2]
  | none => p6

/-- `SignatureGenerator._add_geometry_details` (lines 444-479). -/
def add_geometry_details (cfg : ToleranceConfig) (e : AbsoluteEntity)
    (parts : List String) : List String :=
  let et := e.dxftype
  if et = "LINE" then
    match e.start, e.endp with
    | some s, some en =>
        parts ++ ["line_" ++ fmtV3 (normalize_with_context3 cfg et s) ++ "_" ++
          fmtV3 (normalize_with_context3 cfg et en)]
    | _, _ => parts
  else if et = "CIRCLE" then
    match e.center, e.radius with
    | some c, some r =>
        parts ++ ["circle_" ++ fmtV3 (normalize_with_context3 cfg et c) ++ "_" ++
          fmtQ (normalize_coordinate_precise r cfg.length_tolerance)]
    | _, _ => parts
  else if et = "ARC" then
    match e.center with
    | some c =>
        let r := normalize_coordinate_precise (e.radius.getD 0) cfg.length_tolerance
        let sa := normalize_coordinate_precise (e.start_angle.getD 0)
          (radiansQ cfg.angle_tolerance)
        let ea := normalize_coordinate_precise (e.end_angle.getD 0)
          (radiansQ cfg.angle_tolerance)
        parts ++ ["arc_" ++ fmtV3 (normalize_with_context3 cfg et c) ++ "_" ++
          fmtQ r ++ "_" ++ fmtQ sa ++ "_" ++ fmtQ ea]
    | none => parts
  else if et = "LWPOLYLINE" then
    match e.vertices with
    | some vs =>
        if vs ≠ [] then
          let nvs := (vs.take 5).map (normalize_with_context2 cfg et)
          if nvs ≠ [] then parts ++ ["lwpoly_vertices_" ++ fmtVList nvs] else parts
        else parts
    | none => parts
  else parts

/-- The tail of the signature part list (everything after the leading
entity kind), or a failure when a field-building step raises: the only
modelled failure is reading `.strip()` off a non-string text payload
(line 394).  Mirrors the body of `create_absolute_entity_signature`
(lines 366-409). -/
def signatureTail (cfg : ToleranceConfig) (e : AbsoluteEntity) :
    Except Unit (List String) :=
  let p1 := match primaryPosition e with
    | some pos =>
        ["pos_" ++ fmtV3 (normalize_with_context3 cfg e.dxftype pos)]
    | none => []
  let p2 := match e.insert_info with
    | some info =>
        if e.is_direct_modelspace then p1
        else p1 ++ ["from_insert_" ++
          fmtV3 (normalize_with_context3 cfg e.dxftype info.insert_point)]
    | none => p1
  match e.text_content with
  | some .notStr => .error ()
  | some (.str s) =>
      let p3 := if s.trim ≠ "" then
          p2 ++ ["text_" ++ ((s.trim.replace "\n" "").replace "\r" "")]
        else p2
      let p4 := if e.dxftype = "ATTRIB" then
          p3 ++ ["tag_" ++ e.attrib_tag.getD ""] else p3
      .ok (add_geometry_details cfg e (add_important_attributes cfg e p4))
  | none =>
      let p4 := if e.dxftype = "ATTRIB" then
          p2 ++ ["tag_" ++ e.attrib_tag.getD ""] else p2
      .ok (add_geometry_details cfg e (add_important_attributes cfg e p4))

/-- `SignatureGenerator.create_absolute_entity_signature` (lines
364-414).  The whole body runs under one `try`; on success the parts
are joined with underscores, and on any field failure the `except`
branch returns the fallback string built from the entity kind and the
runtime object id `id(absolute_entity)`, passed here as `oid`. -/
def create_absolute_entity_signature (cfg : ToleranceConfig)
    (e : AbsoluteEntity) (oid : Nat) : String :=
  match signatureTail cfg e with
  | .ok parts => pyJoin "_" (e.dxftype :: parts)
  | .error _ => e.dxftype ++ "_error_" ++ toString oid

/-- True when the entity cannot hit the modelled failure channel of the
signature builder, i.e. its text payload is absent or an actual
string. -/
def sigSafe (e : AbsoluteEntity) : Bool :=
  match e.text_content with
  | some .notStr => false
  | _ => true

/-- The hash-input record built by
`DiffAnalyzer.create_entity_data_from_absolute` (lines 509-535).  Only
the fields the hash branch reads are carried; the raw attribute map and
the kind-specific geometry-detail fields feed only the JSON fallback
serialization, which stays a deterministic function of the record. -/
structure EntityData where
  dxftype : String
  absolute_signature : String
  text_content : Option PyVal
  is_transformed : Bool
  attrib_tag : Option String
  insert_info : Option InsertInfo
deriving DecidableEq

/-- A deterministic key-sorted serialization of the hash-input record,
modelling `json.dumps(entity_data, sort_keys=True, ...)`. -/
def entityDataJson (d : EntityData) : String :=
  let txt := match d.text_content with
    | some (.str s) => "str " ++ s
    | some .notStr => "nonstr"
    | none => "null"
  let tag := match d.attrib_tag with
    | some t => t
    | none => "null"
  let info := match d.insert_info with
    | some i => i.block_name ++ "@" ++ fmtV3 i.insert_point
    | none => "null"
  "json(absolute_signature:" ++ d.absolute_signature ++
    ",attrib_tag:" ++ tag ++
    ",dxftype:" ++ d.dxftype ++
    ",insert_info:" ++ info ++
    ",is_transformed:" ++ toString d.is_transformed ++
    ",text_content:" ++ txt ++ ")"

/-- `DiffAnalyzer.create_entity_data_from_absolute` (lines 509-535):
builds the hash-input record around the entity signature; the `attrib_tag`
key is copied only for ATTRIB entities.  The surrounding `try` makes the
result optional in the source; the modelled body is total. -/
def create_entity_data_from_absolute (cfg : ToleranceConfig)
    (e : AbsoluteEntity) (oid : Nat) : Option EntityData :=
  some
    { dxftype := e.dxftype
      absolute_signature := create_absolute_entity_signature cfg e oid
      text_content := e.text_content
      is_transformed := e.is_transformed
      attrib_tag := if e.dxftype = "ATTRIB" then e.attrib_tag else none
      insert_info := e.insert_info }

/-- `DiffAnalyzer.generate_enhanced_hash` (lines 489-507): `none` input
propagates; a non-empty signature is hashed directly, an empty signature
falls back to hashing the key-sorted JSON serialization. -/
def generate_enhanced_hash (entity_data : Option EntityData) : Option String :=
  match entity_data with
  | none => none
  | some d =>
      if d.absolute_signature ≠ "" then some (sha256hex d.absolute_signature)
      else some (sha256hex (entityDataJson d))

/-- The location label recorded by `extract_entities_from_doc`
(lines 582-587). -/
def entity_location (e : AbsoluteEntity) : String :=
  if e.is_direct_modelspace then "modelspace"
  else "expanded_from_" ++ ((e.insert_info.map InsertInfo.block_name).getD "unknown")

/-- The key set of the fingerprint index built by
`DiffAnalyzer.extract_entities_from_doc` (lines 568-601): one document
is the list of its absolute entities paired with the runtime object ids
`id(absolute_entity)` of the per-read dictionary objects.  Entities
whose record or hash comes back `None` are skipped; collecting the keys
of the `entities_by_hash` grouping is collecting the distinct hashes. -/
def extract_keys (cfg : ToleranceConfig)
    (ents : List (AbsoluteEntity × Nat)) : Finset String :=
  (ents.filterMap fun p =>
    generate_enhanced_hash (create_entity_data_from_absolute cfg p.1 p.2)).toFinset

/-- The occurrence lists of the fingerprint index
(`entities_by_hash[hash] = [(location, entity), ...]`). -/
def entities_by_hash (cfg : ToleranceConfig)
    (ents : List (AbsoluteEntity × Nat)) (h : String) :
    List (String × AbsoluteEntity) :=
  ents.filterMap fun p =>
    match generate_enhanced_hash (create_entity_data_from_absolute cfg p.1 p.2) with
    | some h2 => if h2 = h then some (entity_location p.1, p.1) else none
    | none => none

/-- `deleted_hashes = hashes_a - hashes_b`
(`compare_dxf_files_and_generate_dxf` line 851). -/
def deleted_hashes (hashes_a hashes_b : Finset String) : Finset String :=
  hashes_a \ hashes_b

/-- `added_hashes = hashes_b - hashes_a` (line 852). -/
def added_hashes (hashes_a hashes_b : Finset String) : Finset String :=
  hashes_b \ hashes_a

/-- `common_hashes = hashes_a & hashes_b` (line 853). -/
def common_hashes (hashes_a hashes_b : Finset String) : Finset String :=
  hashes_a ∩ hashes_b

/-- One drawing call issued against the output modelspace by
`OutputGenerator.create_entity_from_absolute`.  Optional fields of
`addText` are present exactly when the corresponding key is present in
the `dxfattribs` dictionary passed to the library call. -/
inductive RenderOp where
  | addLine (start endp : Vec3) (layer : String) (color : ℤ)
  | addCircle (center : Vec3) (radius : ℚ) (layer : String) (color : ℤ)
  | addArc (center : Vec3) (radius start_angle end_angle : ℚ)
      (layer : String) (color : ℤ)
  | addText (text : String) (insert : Vec3) (height : Option ℚ)
      (rotation : Option ℚ) (style : Option String) (layer : String) (color : ℤ)
  | addMtext (text : String) (insert : Vec3) (layer : String) (color : ℤ)
  | addPoint (location : Vec3) (layer : String) (color : ℤ)
  | addLwpolyline (points : List (ℚ × ℚ)) (closed : Bool)
      (layer : String) (color : ℤ)
deriving DecidableEq

/-- The stored text payload as passed to the output text calls: a
missing payload renders as empty text; a non-string payload makes the
library call raise, which the per-entity handler turns into a skipped
entity (`return False`). -/
def textPayload (t : Option PyVal) : Except Unit String :=
  match t with
  | some (.str s) => .ok s
  | some .notStr => .error ()
  | none => .ok ""

/-- `OutputGenerator.create_entity_from_absolute` (lines 648-747): the
kind-dispatch table of the renderer.  Returns the drawing calls issued
and the boolean result (`False` when the per-entity `except` handler
fires, in the model only for a non-string text payload). -/
def create_entity_from_absolute (e : AbsoluteEntity)
    (layer_name : String) (layer_color : ℤ) : List RenderOp × Bool :=
  let et := e.dxftype
  if et = "LINE" then
    ([.addLine (e.start.getD (0, 0, 0)) (e.endp.getD (1, 1, 0)) layer_name layer_color],
     true)
  else if et = "CIRCLE" then
    ([.addCircle (e.center.getD (0, 0, 0)) (e.radius.getD 1) layer_name layer_color],
     true)
  else if et = "ARC" then
    ([.addArc (e.center.getD (0, 0, 0)) (e.radius.getD 1) (e.start_angle.getD 0)
        (e.end_angle.getD 90) layer_name layer_color], true)
  else if et = "TEXT" then
    match textPayload e.text_content with
    | .ok s =>
        ([.addText s (e.insert.getD (0, 0, 0)) e.height e.rotation e.style
            layer_name layer_color], true)
    | .error _ => ([], false)
  else if et = "MTEXT" then
    match textPayload e.text_content with
    | .ok s => ([.addMtext s (e.insert.getD (0, 0, 0)) layer_name layer_color], true)
    | .error _ => ([], false)
  else if et = "ATTRIB" then
    match textPayload e.text_content with
    | .ok s =>
        let tag := e.attrib_tag.getD ""
        let display := if s ≠ "" then s else "[" ++ tag ++ "]"
        ([.addText display (e.insert.getD (0, 0, 0)) (some (e.height.getD (5/2)))
            (some (e.rotation.getD 0)) (some (e.style.getD "Standard"))
            layer_name layer_color], true)
    | .error _ => ([], false)
  else if et = "POINT" then
    ([.addPoint (e.location.getD (0, 0, 0)) layer_name layer_color], true)
  else if et = "LWPOLYLINE" then
    match e.vertices with
    | some vs =>
        if vs ≠ [] then
          ([.addLwpolyline vs (vs.length ≥ 3) layer_name layer_color], true)
        else ([], true)
    | none => ([], true)
  else
    ([.addText ("[" ++ et ++ "]") (e.insert.getD (e.center.getD (0, 0, 0)))
        (some (5/2)) none none layer_name layer_color], true)

/-- `LayerConfig.__init__` (lines 604-632): the three output layers with
their configurable colors. -/
structure LayerConfig where
  deleted_color : ℤ
  added_color : ℤ
  unchanged_color : ℤ
deriving DecidableEq

/-- The drawing calls emitted for one classification set: for each hash
(set iteration abstracted as sorted order), the first recorded
occurrence in the owning index is materialized and the remaining
occurrences are skipped (`break` in lines 771-796). -/
def renderClassification (idx : String → List (String × AbsoluteEntity))
    (hs : Finset String) (layer_name : String) (layer_color : ℤ) : List RenderOp :=
  (hs.sort (· ≤ ·)).flatMap fun h =>
    match idx h with
    | [] => []
    | (_, e) :: _ => (create_entity_from_absolute e layer_name layer_color).1

/-- `OutputGenerator.create_diff_dxf` (lines 749-804): renders DELETED
representatives from index A, ADDED from index B, UNCHANGED from index
A, then saves.  Per-entity render results are ignored; the returned
boolean is `True` exactly when the final `saveas` call succeeds, which
is the modelled document-level effect `saveOk`. -/
def create_diff_dxf (lc : LayerConfig)
    (idxA idxB : String → List (String × AbsoluteEntity))
    (deleted added common : Finset String) (saveOk : Bool) :
    List RenderOp × Bool :=
  (renderClassification idxA deleted "DELETED" lc.deleted_color ++
   renderClassification idxB added "ADDED" lc.added_color ++
   renderClassification idxA common "UNCHANGED" lc.unchanged_color,
   saveOk)

/-- The document-level effects of one comparison call: the results of
the two `ezdxf.readfile` calls (`none` models a raised parse/read
error) and the outcome of the final `saveas`.  A read document is its
list of absolute entities paired with per-read runtime object ids. -/
structure CompareEnv where
  readA : Option (List (AbsoluteEntity × Nat))
  readB : Option (List (AbsoluteEntity × Nat))
  saveOk : Bool

/-- `compare_dxf_files_and_generate_dxf` (lines 807-863): the
orchestrator.  A failed read of either document falls into the outer
`except` and returns `False` with nothing written; otherwise the diff
is computed and the result is the `create_diff_dxf` boolean.  The
second component models the persisted output document: present exactly
when the call succeeds. -/
def compare_dxf_files_and_generate_dxf (tolerance : ℚ)
    (deleted_color added_color unchanged_color : ℤ) (env : CompareEnv) :
    Bool × Option (List RenderOp) :=
  match env.readA, env.readB with
  | some docA, some docB =>
      let cfg := ToleranceConfig.ofBase tolerance
      let hashesA := extract_keys cfg docA
      let hashesB := extract_keys cfg docB
      let lc : LayerConfig := ⟨deleted_color, added_color, unchanged_color⟩
      let res := create_diff_dxf lc (entities_by_hash cfg docA)
        (entities_by_hash cfg docB)
        (deleted_hashes hashesA hashesB) (added_hashes hashesA hashesB)
        (common_hashes hashesA hashesB) env.saveOk
      (res.2, if res.2 then some res.1 else none)
  | _, _ => (false, none)

/-- A numpy 4x4 matrix of float64 entries, modelled over the reals. -/
structure Mat4 where
  m00 : ℝ
  m01 : ℝ
  m02 : ℝ
  m03 : ℝ
  m10 : ℝ
  m11 : ℝ
  m12 : ℝ
  m13 : ℝ
  m20 : ℝ
  m21 : ℝ
  m22 : ℝ
  m23 : ℝ
  m30 : ℝ
  m31 : ℝ
  m32 : ℝ
  m33 : ℝ

/-- Matrix product, numpy `A @ B`. -/
def Mat4.mul (a b : Mat4) : Mat4 :=
  { m00 := a.m00 * b.m00 + a.m01 * b.m10 + a.m02 * b.m20 + a.m03 * b.m30
    m01 := a.m00 * b.m01 + a.m01 * b.m11 + a.m02 * b.m21 + a.m03 * b.m31
    m02 := a.m00 * b.m02 + a.m01 * b.m12 + a.m02 * b.m22 + a.m03 * b.m32
    m03 := a.m00 * b.m03 + a.m01 * b.m13 + a.m02 * b.m23 + a.m03 * b.m33
    m10 := a.m10 * b.m00 + a.m11 * b.m10 + a.m12 * b.m20 + a.m13 * b.m30
    m11 := a.m10 * b.m01 + a.m11 * b.m11 + a.m12 * b.m21 + a.m13 * b.m31
    m12 := a.m10 * b.m02 + a.m11 * b.m12 + a.m12 * b.m22 + a.m13 * b.m32
    m13 := a.m10 * b.m03 + a.m11 * b.m13 + a.m12 * b.m23 + a.m13 * b.m33
    m20 := a.m20 * b.m00 + a.m21 * b.m10 + a.m22 * b.m20 + a.m23 * b.m30
    m21 := a.m20 * b.m01 + a.m21 * b.m11 + a.m22 * b.m21 + a.m23 * b.m31
    m22 := a.m20 * b.m02 + a.m21 * b.m12 + a.m22 * b.m22 + a.m23 * b.m32
    m23 := a.m20 * b.m03 + a.m21 * b.m13 + a.m22 * b.m23 + a.m23 * b.m33
    m30 := a.m30 * b.m00 + a.m31 * b.m10 + a.m32 * b.m20 + a.m33 * b.m30
    m31 := a.m30 * b.m01 + a.m31 * b.m11 + a.m32 * b.m21 + a.m33 * b.m31
    m32 := a.m30 * b.m02 + a.m31 * b.m12 + a.m32 * b.m22 + a.m33 * b.m32
    m33 := a.m30 * b.m03 + a.m31 * b.m13 + a.m32 * b.m23 + a.m33 * b.m33 }

/-- `np.eye(4)`. -/
def Mat4.identity : Mat4 :=
  ⟨1, 0, 0, 0, 0, 1, 0, 0, 0, 0, 1, 0, 0, 0, 0, 1⟩

/-- The translation factor of `create_transformation_matrix`
(lines 122-127). -/
def translationMat (tx ty tz : ℝ) : Mat4 :=
  ⟨1, 0, 0, tx, 0, 1, 0, ty, 0, 0, 1, tz, 0, 0, 0, 1⟩

/-- The z-rotation factor of `create_transformation_matrix`
(lines 114-120), angle in radians. -/
noncomputable def rotationMat (r : ℝ) : Mat4 :=
  ⟨Real.cos r, -Real.sin r, 0, 0,
   Real.sin r, Real.cos r, 0, 0,
   0, 0, 1, 0,
   0, 0, 0, 1⟩

/-- The scale factor of `create_transformation_matrix` (lines 107-112). -/
def scaleMat (sx sy sz : ℝ) : Mat4 :=
  ⟨sx, 0, 0, 0, 0, sy, 0, 0, 0, 0, sz, 0, 0, 0, 0, 1⟩

/-- A 3D point of the real layer. -/
abbrev Vec3R : Type := ℝ × ℝ × ℝ

/-- A raw DXF entity as read from the document model: the typed view of
the cleaned `dxf` attribute dictionary that the expander reads.  `endp`
stands for the source attribute named `end`. -/
structure EntityCore where
  etype : String
  insert : Option Vec3R := none
  center : Option Vec3R := none
  start : Option Vec3R := none
  endp : Option Vec3R := none
  location : Option Vec3R := none
  base_point : Option Vec3R := none
  vertices : Option (List (ℝ × ℝ)) := none
  radius : Option ℝ := none
  height : Option ℝ := none
  rotation : Option ℝ := none
  xscale : Option ℝ := none
  yscale : Option ℝ := none
  zscale : Option ℝ := none
  name : Option String := none
  text : Option PyVal := none

/-- A modelspace entity together with its attached ATTRIB instances
(`entity.attribs` of an INSERT; empty for other kinds). -/
structure DxfEntity where
  core : EntityCore
  attribs : List EntityCore := []

/-- A drawing document: its modelspace entities and its named blocks. -/
structure DocR where
  msp : List DxfEntity
  blocks : List (String × List EntityCore)

/-- `CoordinateTransformer.create_transformation_matrix` (lines
84-133): translation from the insertion point, rotation from the
rotation attribute in degrees converted to radians, scale from the
per-axis scale attributes, composed as `translation @ rotation @
scale`; missing attributes default to origin, zero angle and unit
scale. -/
noncomputable def create_transformation_matrix (e : EntityCore) : Mat4 :=
  let ip := e.insert.getD (0, 0, 0)
  let r := (e.rotation.getD 0) * (Real.pi / 180)
  ((translationMat ip.1 ip.2.1 ip.2.2).mul (rotationMat r)).mul
    (scaleMat (e.xscale.getD 1) (e.yscale.getD 1) (e.zscale.getD 1))

/-- `CoordinateTransformer.transform_point` (lines 135-149):
homogeneous multiply, dropping the fourth coordinate. -/
def transform_point (p : Vec3R) (m : Mat4) : Vec3R :=
  (m.m00 * p.1 + m.m01 * p.2.1 + m.m02 * p.2.2 + m.m03,
   m.m10 * p.1 + m.m11 * p.2.1 + m.m12 * p.2.2 + m.m13,
   m.m20 * p.1 + m.m21 * p.2.1 + m.m22 * p.2.2 + m.m23)

/-- `CoordinateTransformer.extract_scale_factors` (lines 151-159):
per-axis scale recovered from column norms. -/
noncomputable def extract_scale_factors (m : Mat4) : Vec3R :=
  (Real.sqrt (m.m00 ^ 2 + m.m10 ^ 2),
   Real.sqrt (m.m01 ^ 2 + m.m11 ^ 2),
   Real.sqrt (m.m02 ^ 2 + m.m12 ^ 2 + m.m22 ^ 2))

/-- Python `math.isclose(a, b, rel_tol=1e-6)` (absolute tolerance 0). -/
def iscloseR (a b : ℝ) : Prop :=
  |a - b| ≤ (1 / 1000000) * max |a| |b|

/-- The `is_scaled` test of `transform_entity_to_absolute` (line 225):
some extracted scale factor is not approximately 1. -/
def is_scaledR (s : Vec3R) : Prop :=
  ¬(iscloseR s.1 1 ∧ iscloseR s.2.1 1 ∧ iscloseR s.2.2 1)

/-- The provenance dictionary attached by `expand_insert_entities`:
block entities carry block name, insertion point, rotation and scale
(lines 317-326); attached ATTRIB instances carry block name, insertion
point and the `is_insert_attrib` marker (lines 336-340). -/
inductive InsertInfoR where
  | blockEnt (block_name : String) (insert_point : Vec3R)
      (rotation : ℝ) (scale : Vec3R)
  | insertAttrib (block_name : String) (insert_point : Vec3R)

/-- The absolute-coordinate record of the real layer, as produced by
`transform_entity_to_absolute` and tagged by `expand_insert_entities`. -/
structure AbsEntityR where
  dxftype : String
  insert : Option Vec3R := none
  center : Option Vec3R := none
  start : Option Vec3R := none
  endp : Option Vec3R := none
  location : Option Vec3R := none
  base_point : Option Vec3R := none
  vertices : Option (List (ℝ × ℝ)) := none
  radius : Option ℝ := none
  height : Option ℝ := none
  rotation : Option ℝ := none
  text_content : Option PyVal := none
  is_transformed : Bool := true
  scale_factors : Option Vec3R := none
  insert_info : Option InsertInfoR := none
  is_direct_modelspace : Bool := false

open Classical in
/-- `EntityExpander.transform_entity_to_absolute` (lines 216-249): the
coordinate attributes `insert`, `center`, `start`, `end`, `location`,
`base_point` and the polyline vertices are mapped through the matrix;
when the extracted scale is not approximately (1,1,1), circle/arc radii
are rescaled by the average of the x/y scales and text heights by the
y scale, and the scale factors are recorded. -/
noncomputable def transform_entity_to_absolute (e : EntityCore) (m : Mat4) :
    AbsEntityR :=
  let s := extract_scale_factors m
  let scaled := is_scaledR s
  { dxftype := e.etype
    insert := e.insert.map (transform_point · m)
    center := e.center.map (transform_point · m)
    start := e.start.map (transform_point · m)
    endp := e.endp.map (transform_point · m)
    location := e.location.map (transform_point · m)
    base_point := e.base_point.map (transform_point · m)
    vertices := e.vertices.map (List.map fun v =>
      let t := transform_point (v.1, v.2, 0) m
      (t.1, t.2.1))
    radius :=
      if scaled ∧ (e.etype = "CIRCLE" ∨ e.etype = "ARC") then
        e.radius.map (· * ((s.1 + s.2.1) / 2))
      else e.radius
    height :=
      if scaled ∧ (e.etype = "TEXT" ∨ e.etype = "MTEXT" ∨ e.etype = "ATTRIB") then
        e.height.map (· * s.2.1)
      else e.height
    rotation := e.rotation
    text_content := e.text
    is_transformed := true
    scale_factors := if scaled then some s else none }

/-- The expansion of one modelspace entity, the body of the `for` loop
of `expand_insert_entities` (lines 300-352).  For an INSERT whose block
resolves: every block entity except ATTDEF is transformed by the
insert's matrix and tagged with block provenance, then every attached
ATTRIB is transformed by the identity matrix (`np.eye(4)`) and tagged
with attrib provenance.  A missing block name or insertion point makes
the attribute access raise, and the `except` handler skips the whole
INSERT; an unresolved block name contributes nothing.  A non-INSERT,
non-ATTDEF entity is converted with the identity matrix and marked
direct. -/
noncomputable def expandInsert (doc : DocR) (ent : DxfEntity) :
    List AbsEntityR :=
  let e := ent.core
  if e.etype = "INSERT" then
    match e.name, e.insert with
    | some bname, some ip =>
        (match doc.blocks.lookup bname with
         | some bents =>
             let m := create_transformation_matrix e
             (bents.filter (fun be => be.etype ≠ "ATTDEF")).map
               (fun be =>
                 { transform_entity_to_absolute be m with
                     insert_info := some (.blockEnt bname ip (e.rotation.getD 0)
                       (e.xscale.getD 1, e.yscale.getD 1, e.zscale.getD 1)) }) ++
             ent.attribs.map
               (fun ab =>
                 { transform_entity_to_absolute ab Mat4.identity with
                     insert_info := some (.insertAttrib bname ip) })
         | none => [])
    | _, _ => []
  else if e.etype = "ATTDEF" then []
  else [{ transform_entity_to_absolute e Mat4.identity with
            is_direct_modelspace := true }]

/-- `EntityExpander.expand_insert_entities` (lines 295-354). -/
noncomputable def expand_insert_entities (doc : DocR) : List AbsEntityR :=
  doc.msp.flatMap (expandInsert doc)

/-- The hash string stored for one entity by the extraction loop.  In
the model the record construction is total, so the optional hash is
always present; this projection names its value. -/
def fingerprintValue (cfg : ToleranceConfig) (e : AbsoluteEntity) (oid : Nat) :
    String :=
  (generate_enhanced_hash (create_entity_data_from_absolute cfg e oid)).getD ""

/-- Sample document content: a LINE whose start x-coordinate is the
given rational, running to (1,0,0), as a direct modelspace entity. -/
def sampleLine (sx : ℚ) : AbsoluteEntity :=
  { dxftype := "LINE"
    start := some (sx, 0, 0)
    endp := some (1, 0, 0)
    is_direct_modelspace := true }

/-- Sample entity with a non-string text payload: its signature
construction hits the field-failure path. -/
def badTextEnt : AbsoluteEntity :=
  { dxftype := "TEXT"
    insert := some (1, 2, 0)
    height := some 3
    text_content := some .notStr }

/-- Sample entity of a kind outside the renderer dispatch table, with
only a start point available as an anchor candidate. -/
def splineEnt : AbsoluteEntity :=
  { dxftype := "SPLINE"
    start := some (5, 5, 0) }

/-- Sample block entity for the real layer: a LINE in block-local
coordinates. -/
def blockLineCore : EntityCore :=
  { etype := "LINE", start := some (0, 0, 0), endp := some (1, 1, 0) }

/-- Sample ATTDEF template inside the block: excluded from expansion. -/
def attdefCore : EntityCore := { etype := "ATTDEF" }

/-- Sample attached ATTRIB instance carried by the sample INSERT. -/
def attribCore : EntityCore :=
  { etype := "ATTRIB", insert := some (2, 3, 0), height := some 1,
    text := some (.str "V1") }

/-- Sample INSERT placement of block B1 at (100,100,0), rotated 30
degrees, scaled (2,2,1), carrying one attached ATTRIB. -/
def insertEnt : DxfEntity :=
  { core :=
      { etype := "INSERT"
        insert := some (100, 100, 0)
        rotation := some 30
        xscale := some 2
        yscale := some 2
        zscale := some 1
        name := some "B1" }
    attribs := [attribCore] }

/-- Sample document for the real layer: one INSERT of block B1, where
B1 holds a LINE and an ATTDEF. -/
def docW : DocR :=
  { msp := [insertEnt]
    blocks := [("B1", [blockLineCore, attdefCore])] }

theorem roundHalfEven_dist (q : ℚ) : |q - roundHalfEven q| ≤ 1/2 := by
  have h0 : (⌊q⌋ : ℚ) ≤ q := Int.floor_le q
  have h1 : q < ⌊q⌋ + 1 := Int.lt_floor_add_one q
  unfold roundHalfEven
  split_ifs with hlt hgt hev
  · rw [abs_of_nonneg (by linarith)]
    linarith
  · push_cast
    rw [abs_of_nonpos (by linarith)]
    linarith
  · rw [abs_of_nonneg (by linarith)]
    linarith
  · push_cast
    rw [abs_of_nonpos (by linarith)]
    linarith

theorem roundHalfEven_nearest (q : ℚ) (m : ℤ) :
    |q - roundHalfEven q| ≤ |q - m| := by
  rcases eq_or_ne (roundHalfEven q) m with h | h
  · rw [h]
  · have hd := roundHalfEven_dist q
    have hz : ((roundHalfEven q : ℚ) - m) ≠ 0 := by
      intro hc
      apply h
      exact_mod_cast sub_eq_zero.mp hc
    have h1 : (1 : ℚ) ≤ |(roundHalfEven q : ℚ) - m| := by
      have : (1 : ℚ) ≤ |((roundHalfEven q - m : ℤ) : ℚ)| := by
        rw [← Int.cast_abs]
        exact_mod_cast Int.one_le_abs (by exact_mod_cast sub_ne_zero.mpr h)
      push_cast at this
      convert this using 2
    have htri : |(roundHalfEven q : ℚ) - m| ≤
        |q - roundHalfEven q| + |q - m| := by
      calc |(roundHalfEven q : ℚ) - m| = |((roundHalfEven q : ℚ) - q) + (q - m)| := by
            ring_nf
        _ ≤ |(roundHalfEven q : ℚ) - q| + |q - m| := abs_add _ _
        _ = |q - roundHalfEven q| + |q - m| := by rw [abs_sub_comm]
    linarith

theorem roundHalfEven_tie (q : ℚ) (h : q - ⌊q⌋ = 1/2) :
    roundHalfEven q % 2 = 0 := by
  unfold roundHalfEven
  rw [h]
  norm_num
  split_ifs with hev
  · exact hev
  · omega

/-- C5: for every value and every positive tolerance, the quantization
`normalize_coordinate_precise` equals the value divided by the
tolerance, rounded to the nearest integer under the fixed half-to-even
tie-breaking rule shared by the decimal path and the float fallback,
multiplied back by the tolerance: the result is the grid multiple
nearest the value (ties choosing the even quotient), and as a Lean
function it is by construction a pure function of (value, tolerance). -/
theorem c5_quantization (v t : ℚ) (ht : 0 < t) :
    normalize_coordinate_precise v t = (roundHalfEven (v / t) : ℚ) * t ∧
    (∃ n : ℤ, normalize_coordinate_precise v t = n * t ∧
      (∀ m : ℤ, |v - n * t| ≤ |v - m * t|) ∧
      (v / t - ⌊v / t⌋ = 1/2 → n % 2 = 0)) := by
  have hdef : normalize_coordinate_precise v t = (roundHalfEven (v / t) : ℚ) * t := by
    unfold normalize_coordinate_precise
    rw [if_neg (not_le.mpr ht)]
  refine ⟨hdef, roundHalfEven (v / t), hdef, ?_, roundHalfEven_tie _⟩
  intro m
  have key : ∀ k : ℤ, |v - k * t| = |v / t - k| * t := by
    intro k
    have hk : v - k * t = (v / t - k) * t := by
      field_simp
      ring
    rw [hk, abs_mul, abs_of_pos ht]
  rw [key, key]
  exact mul_le_mul_of_nonneg_right (roundHalfEven_nearest _ m) (le_of_lt ht)

theorem c5_quantization_witness :
    (0 : ℚ) < 1/100 ∧
    (normalize_coordinate_precise (3/500) (1/100) =
        (roundHalfEven ((3/500) / (1/100)) : ℚ) * (1/100) ∧
      (∃ n : ℤ, normalize_coordinate_precise (3/500) (1/100) = n * (1/100) ∧
        (∀ m : ℤ, |(3/500 : ℚ) - n * (1/100)| ≤ |(3/500 : ℚ) - m * (1/100)|) ∧
        ((3/500 : ℚ) / (1/100) - ⌊(3/500 : ℚ) / (1/100)⌋ = 1/2 → n % 2 = 0))) :=
  ⟨by norm_num, c5_quantization (3/500) (1/100) (by norm_num)⟩

theorem foldl_sep_prefix (sep : String) (xs : List String) (acc : String) :
    ∃ r, xs.foldl (fun a y => a ++ sep ++ y) acc = acc ++ r := by
  induction xs generalizing acc with
  | nil => exact ⟨"", (String.append_empty acc).symm⟩
  | cons y ys ih =>
      obtain ⟨r, hr⟩ := ih (acc ++ sep ++ y)
      refine ⟨sep ++ y ++ r, ?_⟩
      rw [List.foldl_cons, hr]
      simp [String.append_assoc]

theorem pyJoin_prefix (sep x : String) (xs : List String) :
    ∃ r, pyJoin sep (x :: xs) = x ++ r := by
  simpa [pyJoin] using foldl_sep_prefix sep xs x

theorem string_ne_empty_of_left (a b : String) (h : a ≠ "") : a ++ b ≠ "" := by
  intro hab
  apply h
  have hlen : (a ++ b).length = 0 := by rw [hab]; rfl
  rw [String.length_append] at hlen
  have ha : a.length = 0 := by omega
  cases a with
  | mk data =>
      cases data with
      | nil => rfl
      | cons c cs => simp [String.length] at ha

theorem sig_starts_with (cfg : ToleranceConfig) (e : AbsoluteEntity) (oid : Nat) :
    ∃ r, create_absolute_entity_signature cfg e oid = e.dxftype ++ r := by
  unfold create_absolute_entity_signature
  cases h : signatureTail cfg e with
  | ok parts => simpa using pyJoin_prefix "_" e.dxftype parts
  | error u => exact ⟨"_error_" ++ toString oid, by rw [String.append_assoc]⟩

theorem signatureTail_ok_of_safe (cfg : ToleranceConfig) (e : AbsoluteEntity)
    (hs : sigSafe e = true) : ∃ parts, signatureTail cfg e = Except.ok parts := by
  unfold signatureTail
  cases h : e.text_content with
  | none => exact ⟨_, rfl⟩
  | some v =>
      cases v with
      | str s => exact ⟨_, rfl⟩
      | notStr => simp [sigSafe, h] at hs

theorem sig_oid_irrelevant (cfg : ToleranceConfig) (e : AbsoluteEntity)
    (hs : sigSafe e = true) (i j : Nat) :
    create_absolute_entity_signature cfg e i =
      create_absolute_entity_signature cfg e j := by
  obtain ⟨parts, hp⟩ := signatureTail_ok_of_safe cfg e hs
  unfold create_absolute_entity_signature
  rw [hp]

theorem fingerprint_some (cfg : ToleranceConfig) (e : AbsoluteEntity) (oid : Nat) :
    generate_enhanced_hash (create_entity_data_from_absolute cfg e oid) =
      some (fingerprintValue cfg e oid) := by
  simp only [fingerprintValue, create_entity_data_from_absolute, generate_enhanced_hash]
  split <;> simp

theorem fingerprint_oid_irrelevant (cfg : ToleranceConfig) (e : AbsoluteEntity)
    (hs : sigSafe e = true) (i j : Nat) :
    fingerprintValue cfg e i = fingerprintValue cfg e j := by
  have h := sig_oid_irrelevant cfg e hs i j
  simp [fingerprintValue, generate_enhanced_hash, create_entity_data_from_absolute,
    entityDataJson, h]

theorem mem_extract_keys (cfg : ToleranceConfig)
    (ents : List (AbsoluteEntity × Nat)) (h : String) :
    h ∈ extract_keys cfg ents ↔ ∃ p ∈ ents, fingerprintValue cfg p.1 p.2 = h := by
  unfold extract_keys
  rw [List.mem_toFinset, List.mem_filterMap]
  constructor
  · rintro ⟨p, hp, he⟩
    refine ⟨p, hp, ?_⟩
    rw [fingerprint_some] at he
    exact Option.some_inj.mp he
  · rintro ⟨p, hp, he⟩
    exact ⟨p, hp, by rw [fingerprint_some, he]⟩

/-- C1: the diff classification is pure set algebra over the
fingerprint key sets of the two indexes: DELETED is exactly the keys of
A absent from B, ADDED exactly the keys of B absent from A, UNCHANGED
exactly the intersection; the three sets are pairwise disjoint; and
occurrence counts are ignored — an entity occurring twice in A and once
in B contributes one fingerprint classified UNCHANGED, in neither
DELETED nor ADDED. -/
theorem c1_diff_set_algebra (cfg : ToleranceConfig)
    (entsA entsB : List (AbsoluteEntity × Nat)) :
    (∀ h, h ∈ deleted_hashes (extract_keys cfg entsA) (extract_keys cfg entsB) ↔
      h ∈ extract_keys cfg entsA ∧ h ∉ extract_keys cfg entsB) ∧
    (∀ h, h ∈ added_hashes (extract_keys cfg entsA) (extract_keys cfg entsB) ↔
      h ∈ extract_keys cfg entsB ∧ h ∉ extract_keys cfg entsA) ∧
    (∀ h, h ∈ common_hashes (extract_keys cfg entsA) (extract_keys cfg entsB) ↔
      h ∈ extract_keys cfg entsA ∧ h ∈ extract_keys cfg entsB) ∧
    Disjoint (deleted_hashes (extract_keys cfg entsA) (extract_keys cfg entsB))
      (added_hashes (extract_keys cfg entsA) (extract_keys cfg entsB)) ∧
    Disjoint (deleted_hashes (extract_keys cfg entsA) (extract_keys cfg entsB))
      (common_hashes (extract_keys cfg entsA) (extract_keys cfg entsB)) ∧
    Disjoint (added_hashes (extract_keys cfg entsA) (extract_keys cfg entsB))
      (common_hashes (extract_keys cfg entsA) (extract_keys cfg entsB)) ∧
    (∀ (e : AbsoluteEntity) (i1 i2 j : Nat), sigSafe e = true →
      (e, i1) ∈ entsA → (e, i2) ∈ entsA → (e, j) ∈ entsB →
      fingerprintValue cfg e i1 ∈
        common_hashes (extract_keys cfg entsA) (extract_keys cfg entsB) ∧
      fingerprintValue cfg e i1 ∉
        deleted_hashes (extract_keys cfg entsA) (extract_keys cfg entsB) ∧
      fingerprintValue cfg e i1 ∉
        added_hashes (extract_keys cfg entsA) (extract_keys cfg entsB)) := by
  unfold deleted_hashes added_hashes common_hashes
  refine ⟨fun h => Finset.mem_sdiff, fun h => Finset.mem_sdiff,
    fun h => Finset.mem_inter, ?_, ?_, ?_, ?_⟩
  · rw [Finset.disjoint_left]
    intro a ha hb
    rw [Finset.mem_sdiff] at ha hb
    exact hb.2 ha.1
  · rw [Finset.disjoint_left]
    intro a ha hb
    rw [Finset.mem_sdiff] at ha
    rw [Finset.mem_inter] at hb
    exact ha.2 hb.2
  · rw [Finset.disjoint_left]
    intro a ha hb
    rw [Finset.mem_sdiff] at ha
    rw [Finset.mem_inter] at hb
    exact ha.2 hb.1
  · intro e i1 i2 j hs h1 h2 h3
    have hA : fingerprintValue cfg e i1 ∈ extract_keys cfg entsA :=
      (mem_extract_keys cfg entsA _).mpr ⟨(e, i1), h1, rfl⟩
    have hB : fingerprintValue cfg e i1 ∈ extract_keys cfg entsB :=
      (mem_extract_keys cfg entsB _).mpr
        ⟨(e, j), h3, fingerprint_oid_irrelevant cfg e hs j i1⟩
    refine ⟨Finset.mem_inter.mpr ⟨hA, hB⟩, ?_, ?_⟩
    · rw [Finset.mem_sdiff]
      intro hc
      exact hc.2 hB
    · rw [Finset.mem_sdiff]
      intro hc
      exact hc.2 hA

theorem c1_diff_set_algebra_witness :
    fingerprintValue (ToleranceConfig.ofBase (1/100)) (sampleLine (3/500)) 0 ∈
      common_hashes
        (extract_keys (ToleranceConfig.ofBase (1/100))
          [(sampleLine (3/500), 0), (sampleLine (3/500), 1)])
        (extract_keys (ToleranceConfig.ofBase (1/100)) [(sampleLine (3/500), 5)]) ∧
    fingerprintValue (ToleranceConfig.ofBase (1/100)) (sampleLine (3/500)) 0 ∉
      deleted_hashes
        (extract_keys (ToleranceConfig.ofBase (1/100))
          [(sampleLine (3/500), 0), (sampleLine (3/500), 1)])
        (extract_keys (ToleranceConfig.ofBase (1/100)) [(sampleLine (3/500), 5)]) ∧
    fingerprintValue (ToleranceConfig.ofBase (1/100)) (sampleLine (3/500)) 0 ∉
      added_hashes
        (extract_keys (ToleranceConfig.ofBase (1/100))
          [(sampleLine (3/500), 0), (sampleLine (3/500), 1)])
        (extract_keys (ToleranceConfig.ofBase (1/100)) [(sampleLine (3/500), 5)]) :=
  (c1_diff_set_algebra (ToleranceConfig.ofBase (1/100))
      [(sampleLine (3/500), 0), (sampleLine (3/500), 1)]
      [(sampleLine (3/500), 5)]).2.2.2.2.2.2
    (sampleLine (3/500)) 0 1 5 rfl (by simp) (by simp) (by simp)

theorem extract_keys_cons (cfg : ToleranceConfig) (p : AbsoluteEntity × Nat)
    (ents : List (AbsoluteEntity × Nat)) :
    extract_keys cfg (p :: ents) =
      insert (fingerprintValue cfg p.1 p.2) (extract_keys cfg ents) := by
  simp [extract_keys, List.filterMap_cons, fingerprint_some]

theorem extract_keys_zip_eq (cfg : ToleranceConfig) (ents : List AbsoluteEntity)
    (ids : List Nat) (hlen : ids.length = ents.length)
    (hsafe : ∀ e ∈ ents, sigSafe e = true) :
    extract_keys cfg (ents.zip ids) =
      (ents.map fun e => fingerprintValue cfg e 0).toFinset := by
  induction ents generalizing ids with
  | nil => simp [extract_keys]
  | cons a as ih =>
      cases ids with
      | nil => simp at hlen
      | cons i is =>
          have hsa : sigSafe a = true := hsafe a (List.mem_cons_self a as)
          have htail : ∀ e ∈ as, sigSafe e = true :=
            fun e he => hsafe e (List.mem_cons_of_mem a he)
          have hlen2 : is.length = as.length := by simpa using hlen
          rw [List.zip_cons_cons, extract_keys_cons, List.map_cons,
            List.toFinset_cons, ih is hlen2 htail,
            fingerprint_oid_irrelevant cfg a hsa i 0]

/-- C3 amended: comparing a document with itself yields empty DELETED
and ADDED sets and full UNCHANGED, for any two per-read object-id
assignments, provided no entity takes the signature error fallback
(which embeds the run-specific object id into the signature). -/
theorem c3_idempotence_safe (cfg : ToleranceConfig) (ents : List AbsoluteEntity)
    (idsA idsB : List Nat) (hA : idsA.length = ents.length)
    (hB : idsB.length = ents.length)
    (hsafe : ∀ e ∈ ents, sigSafe e = true) :
    deleted_hashes (extract_keys cfg (ents.zip idsA))
        (extract_keys cfg (ents.zip idsB)) = ∅ ∧
    added_hashes (extract_keys cfg (ents.zip idsA))
        (extract_keys cfg (ents.zip idsB)) = ∅ ∧
    common_hashes (extract_keys cfg (ents.zip idsA))
        (extract_keys cfg (ents.zip idsB)) =
      extract_keys cfg (ents.zip idsA) := by
  have hkeys : extract_keys cfg (ents.zip idsA) = extract_keys cfg (ents.zip idsB) := by
    rw [extract_keys_zip_eq cfg ents idsA hA hsafe,
      extract_keys_zip_eq cfg ents idsB hB hsafe]
  unfold deleted_hashes added_hashes common_hashes
  rw [hkeys]
  exact ⟨Finset.sdiff_self _, Finset.sdiff_self _, Finset.inter_self _⟩

theorem c3_idempotence_safe_witness :
    deleted_hashes
        (extract_keys (ToleranceConfig.ofBase (1/100)) ([sampleLine (3/500)].zip [3]))
        (extract_keys (ToleranceConfig.ofBase (1/100)) ([sampleLine (3/500)].zip [9])) = ∅ ∧
    added_hashes
        (extract_keys (ToleranceConfig.ofBase (1/100)) ([sampleLine (3/500)].zip [3]))
        (extract_keys (ToleranceConfig.ofBase (1/100)) ([sampleLine (3/500)].zip [9])) = ∅ ∧
    common_hashes
        (extract_keys (ToleranceConfig.ofBase (1/100)) ([sampleLine (3/500)].zip [3]))
        (extract_keys (ToleranceConfig.ofBase (1/100)) ([sampleLine (3/500)].zip [9])) =
      extract_keys (ToleranceConfig.ofBase (1/100)) ([sampleLine (3/500)].zip [3]) :=
  c3_idempotence_safe (ToleranceConfig.ofBase (1/100)) [sampleLine (3/500)] [3] [9]
    rfl rfl (by
      intro e he
      rw [List.mem_singleton] at he
      subst he
      rfl)

/-- C3 counterexample: a document holding one entity that hits the
signature error fallback, read twice (the two reads hold distinct live
dictionary objects, so their runtime object ids differ), classifies
that entity as DELETED and ADDED rather than UNCHANGED. -/
theorem c3_idempotence_counterexample :
    deleted_hashes
        (extract_keys (ToleranceConfig.ofBase (1/100)) [(badTextEnt, 0)])
        (extract_keys (ToleranceConfig.ofBase (1/100)) [(badTextEnt, 1)]) ≠ ∅ ∧
    added_hashes
        (extract_keys (ToleranceConfig.ofBase (1/100)) [(badTextEnt, 0)])
        (extract_keys (ToleranceConfig.ofBase (1/100)) [(badTextEnt, 1)]) ≠ ∅ ∧
    common_hashes
        (extract_keys (ToleranceConfig.ofBase (1/100)) [(badTextEnt, 0)])
        (extract_keys (ToleranceConfig.ofBase (1/100)) [(badTextEnt, 1)]) = ∅ := by
  decide

set_option maxRecDepth 100000 in
/-- C2 counterexample: two one-LINE documents whose start points
quantize to the same grid point at base tolerance 1/100 but to
different grid points at the larger base tolerance 1/50, so the
fingerprint pair that is UNCHANGED at the smaller tolerance splits
into DELETED plus ADDED at the larger one. -/
theorem c2_tolerance_monotonicity_counterexample :
    (1/100 : ℚ) < 1/50 ∧
    common_hashes
        (extract_keys (ToleranceConfig.ofBase (1/100)) [(sampleLine (3/500), 0)])
        (extract_keys (ToleranceConfig.ofBase (1/100)) [(sampleLine (7/500), 0)]) ≠ ∅ ∧
    common_hashes
        (extract_keys (ToleranceConfig.ofBase (1/50)) [(sampleLine (3/500), 0)])
        (extract_keys (ToleranceConfig.ofBase (1/50)) [(sampleLine (7/500), 0)]) = ∅ ∧
    deleted_hashes
        (extract_keys (ToleranceConfig.ofBase (1/50)) [(sampleLine (3/500), 0)])
        (extract_keys (ToleranceConfig.ofBase (1/50)) [(sampleLine (7/500), 0)]) ≠ ∅ ∧
    added_hashes
        (extract_keys (ToleranceConfig.ofBase (1/50)) [(sampleLine (3/500), 0)])
        (extract_keys (ToleranceConfig.ofBase (1/50)) [(sampleLine (7/500), 0)]) ≠ ∅ := by
  with_unfolding_all decide

/-- C2 amended: tolerance monotonicity holds only in the degenerate,
tolerance-independent case — an entity record occurring (byte-)
identically in both documents has its fingerprint classified UNCHANGED
at every base tolerance, so such matches survive any tolerance
increase; in general a pair matched at a smaller tolerance may split at
a larger one, as the counterexample shows. -/
theorem c2_identical_entities_match_at_all_tolerances (t : ℚ)
    (entsA entsB : List (AbsoluteEntity × Nat)) (e : AbsoluteEntity) (i j : Nat)
    (hs : sigSafe e = true) (hA : (e, i) ∈ entsA) (hB : (e, j) ∈ entsB) :
    fingerprintValue (ToleranceConfig.ofBase t) e i ∈
      common_hashes (extract_keys (ToleranceConfig.ofBase t) entsA)
        (extract_keys (ToleranceConfig.ofBase t) entsB) ∧
    fingerprintValue (ToleranceConfig.ofBase t) e i ∉
      deleted_hashes (extract_keys (ToleranceConfig.ofBase t) entsA)
        (extract_keys (ToleranceConfig.ofBase t) entsB) ∧
    fingerprintValue (ToleranceConfig.ofBase t) e i ∉
      added_hashes (extract_keys (ToleranceConfig.ofBase t) entsA)
        (extract_keys (ToleranceConfig.ofBase t) entsB) := by
  have hAk : fingerprintValue (ToleranceConfig.ofBase t) e i ∈
      extract_keys (ToleranceConfig.ofBase t) entsA :=
    (mem_extract_keys _ entsA _).mpr ⟨(e, i), hA, rfl⟩
  have hBk : fingerprintValue (ToleranceConfig.ofBase t) e i ∈
      extract_keys (ToleranceConfig.ofBase t) entsB :=
    (mem_extract_keys _ entsB _).mpr
      ⟨(e, j), hB, fingerprint_oid_irrelevant _ e hs j i⟩
  unfold common_hashes deleted_hashes added_hashes
  refine ⟨Finset.mem_inter.mpr ⟨hAk, hBk⟩, ?_, ?_⟩
  · rw [Finset.mem_sdiff]
    intro hc
    exact hc.2 hBk
  · rw [Finset.mem_sdiff]
    intro hc
    exact hc.2 hAk

theorem c2_identical_entities_match_at_all_tolerances_witness :
    fingerprintValue (ToleranceConfig.ofBase (1/25)) (sampleLine (3/500)) 2 ∈
      common_hashes
        (extract_keys (ToleranceConfig.ofBase (1/25)) [(sampleLine (3/500), 2)])
        (extract_keys (ToleranceConfig.ofBase (1/25)) [(sampleLine (3/500), 9)]) ∧
    fingerprintValue (ToleranceConfig.ofBase (1/25)) (sampleLine (3/500)) 2 ∉
      deleted_hashes
        (extract_keys (ToleranceConfig.ofBase (1/25)) [(sampleLine (3/500), 2)])
        (extract_keys (ToleranceConfig.ofBase (1/25)) [(sampleLine (3/500), 9)]) ∧
    fingerprintValue (ToleranceConfig.ofBase (1/25)) (sampleLine (3/500)) 2 ∉
      added_hashes
        (extract_keys (ToleranceConfig.ofBase (1/25)) [(sampleLine (3/500), 2)])
        (extract_keys (ToleranceConfig.ofBase (1/25)) [(sampleLine (3/500), 9)]) :=
  c2_identical_entities_match_at_all_tolerances (1/25)
    [(sampleLine (3/500), 2)] [(sampleLine (3/500), 9)] (sampleLine (3/500)) 2 9
    rfl (by simp) (by simp)

/-- C4: the orchestrator returns a boolean that is true exactly when
both input documents read successfully and the finished output document
saves successfully, with the persisted output present exactly in that
case; the equation holds for every pair of read documents, so
entity-level failures inside them (processed through the skip-and-log
paths of extraction and rendering) never influence the success flag. -/
theorem c4_success_flag (tolerance : ℚ) (dc ac uc : ℤ) (env : CompareEnv) :
    (compare_dxf_files_and_generate_dxf tolerance dc ac uc env).1 =
      (env.readA.isSome && env.readB.isSome && env.saveOk) ∧
    (compare_dxf_files_and_generate_dxf tolerance dc ac uc env).2.isSome =
      (compare_dxf_files_and_generate_dxf tolerance dc ac uc env).1 := by
  obtain ⟨ra, rb, so⟩ := env
  cases ra <;> cases rb <;> cases so <;>
    simp [compare_dxf_files_and_generate_dxf, create_diff_dxf]

/-- C8 counterexample: for a concrete malformed entity (truthy
non-string text payload) the failing field is not replaced by a
per-field deterministic placeholder — the whole signature collapses to
the fallback string, which embeds the runtime object id, so two
evaluations of the same malformed entity under different object ids
(e.g. in two runs, or in the two reads of one comparison) yield
different signature strings. -/
theorem c8_deterministic_placeholder_counterexample :
    create_absolute_entity_signature (ToleranceConfig.ofBase (1/100)) badTextEnt 0 =
      "TEXT_error_0" ∧
    create_absolute_entity_signature (ToleranceConfig.ofBase (1/100)) badTextEnt 0 ≠
      create_absolute_entity_signature (ToleranceConfig.ofBase (1/100)) badTextEnt 1 := by
  with_unfolding_all decide

/-- C8 amended: a failure while building any signature field abandons
the remaining fields and returns the whole-signature fallback
`<kind>_error_<objectid>`; the computation always returns a string, and
is deterministic for a fixed entity and fixed runtime object id, but
the placeholder depends on the object id rather than on the entity
content alone. -/
theorem c8_error_fallback (cfg : ToleranceConfig) (e : AbsoluteEntity) (oid : Nat)
    (hf : sigSafe e = false) :
    create_absolute_entity_signature cfg e oid =
      e.dxftype ++ "_error_" ++ toString oid := by
  unfold create_absolute_entity_signature
  have htail : signatureTail cfg e = .error () := by
    unfold signatureTail
    cases h : e.text_content with
    | none => simp [sigSafe, h] at hf
    | some v =>
        cases v with
        | str s => simp [sigSafe, h] at hf
        | notStr => rfl
  rw [htail]

theorem c8_error_fallback_witness :
    sigSafe badTextEnt = false ∧
    create_absolute_entity_signature (ToleranceConfig.ofBase (1/100)) badTextEnt 4 =
      badTextEnt.dxftype ++ "_error_" ++ toString 4 :=
  ⟨rfl, c8_error_fallback (ToleranceConfig.ofBase (1/100)) badTextEnt 4 rfl⟩

/-- C9 counterexample: a SPLINE entity carrying only a start point is
rendered by the fallback branch with its label anchored at the origin —
the renderer consults only the insert point and the center, never the
start point, contradicting the claimed insert/center/start preference
order. -/
theorem c9_fallback_anchor_counterexample :
    create_entity_from_absolute splineEnt "ADDED" 3 =
      ([RenderOp.addText "[SPLINE]" (0, 0, 0) (some (5/2)) none none "ADDED" 3],
        true) ∧
    splineEnt.start = some (5, 5, 0) ∧
    ((0, 0, 0) : Vec3) ≠ (5, 5, 0) := by
  with_unfolding_all decide

/-- C9 amended: for every entity whose kind is outside the dispatch
table (LINE, CIRCLE, ARC, TEXT, MTEXT, ATTRIB, POINT, LWPOLYLINE — the
polyline table entry is the lightweight LWPOLYLINE kind), the renderer
emits one bracketed kind label as text, anchored at the insert point if
present, else the center, else the origin; the start point is never
consulted. -/
theorem c9_fallback_renderer (e : AbsoluteEntity) (layer_name : String)
    (layer_color : ℤ)
    (h : e.dxftype ∉ ["LINE", "CIRCLE", "ARC", "TEXT", "MTEXT", "ATTRIB",
      "POINT", "LWPOLYLINE"]) :
    create_entity_from_absolute e layer_name layer_color =
      ([RenderOp.addText ("[" ++ e.dxftype ++ "]")
          (e.insert.getD (e.center.getD (0, 0, 0))) (some (5/2)) none none
          layer_name layer_color], true) := by
  simp only [List.mem_cons, List.not_mem_nil, or_false, not_or] at h
  obtain ⟨h1, h2, h3, h4, h5, h6, h7, h8⟩ := h
  simp [create_entity_from_absolute, h1, h2, h3, h4, h5, h6, h7, h8]

theorem c9_fallback_renderer_witness :
    splineEnt.dxftype ∉ ["LINE", "CIRCLE", "ARC", "TEXT", "MTEXT", "ATTRIB",
      "POINT", "LWPOLYLINE"] ∧
    create_entity_from_absolute splineEnt "DELETED" 1 =
      ([RenderOp.addText ("[" ++ splineEnt.dxftype ++ "]")
          (splineEnt.insert.getD (splineEnt.center.getD (0, 0, 0))) (some (5/2))
          none none "DELETED" 1], true) :=
  ⟨by decide, c9_fallback_renderer splineEnt "DELETED" 1 (by decide)⟩

/-- C10: every signature the canonicalizer emits begins with the entity
kind (both the normal join and the error fallback prepend it), hence is
non-empty whenever the kind string is non-empty, and so the fingerprint
of a canonicalizer-produced record always takes the direct
hash-of-signature branch — the empty-signature JSON fallback of
`generate_enhanced_hash` is unreachable for such records. -/
theorem c10_signature_prefix_hash (cfg : ToleranceConfig) (e : AbsoluteEntity)
    (oid : Nat) :
    (∃ r, create_absolute_entity_signature cfg e oid = e.dxftype ++ r) ∧
    (e.dxftype ≠ "" → create_absolute_entity_signature cfg e oid ≠ "") ∧
    (e.dxftype ≠ "" →
      generate_enhanced_hash (create_entity_data_from_absolute cfg e oid) =
        some (sha256hex (create_absolute_entity_signature cfg e oid))) := by
  obtain ⟨r, hr⟩ := sig_starts_with cfg e oid
  have hne : e.dxftype ≠ "" → create_absolute_entity_signature cfg e oid ≠ "" := by
    intro hk
    rw [hr]
    exact string_ne_empty_of_left _ _ hk
  refine ⟨⟨r, hr⟩, hne, ?_⟩
  intro hk
  simp [generate_enhanced_hash, create_entity_data_from_absolute, hne hk]

theorem c10_signature_prefix_hash_witness :
    (sampleLine (3/500)).dxftype ≠ "" ∧
    generate_enhanced_hash
        (create_entity_data_from_absolute (ToleranceConfig.ofBase (1/100))
          (sampleLine (3/500)) 7) =
      some (sha256hex
        (create_absolute_entity_signature (ToleranceConfig.ofBase (1/100))
          (sampleLine (3/500)) 7)) :=
  ⟨by decide,
    (c10_signature_prefix_hash (ToleranceConfig.ofBase (1/100))
      (sampleLine (3/500)) 7).2.2 (by decide)⟩

theorem extract_scale_TRS (tx ty tz r sx sy sz : ℝ)
    (hx : 0 ≤ sx) (hy : 0 ≤ sy) (hz : 0 ≤ sz) :
    extract_scale_factors
      (((translationMat tx ty tz).mul (rotationMat r)).mul (scaleMat sx sy sz)) =
      (sx, sy, sz) := by
  have h00 : (((translationMat tx ty tz).mul (rotationMat r)).mul
      (scaleMat sx sy sz)).m00 = Real.cos r * sx := by
    simp [Mat4.mul, translationMat, rotationMat, scaleMat]
  have h10 : (((translationMat tx ty tz).mul (rotationMat r)).mul
      (scaleMat sx sy sz)).m10 = Real.sin r * sx := by
    simp [Mat4.mul, translationMat, rotationMat, scaleMat]
  have h01 : (((translationMat tx ty tz).mul (rotationMat r)).mul
      (scaleMat sx sy sz)).m01 = -Real.sin r * sy := by
    simp [Mat4.mul, translationMat, rotationMat, scaleMat]
  have h11 : (((translationMat tx ty tz).mul (rotationMat r)).mul
      (scaleMat sx sy sz)).m11 = Real.cos r * sy := by
    simp [Mat4.mul, translationMat, rotationMat, scaleMat]
  have h02 : (((translationMat tx ty tz).mul (rotationMat r)).mul
      (scaleMat sx sy sz)).m02 = 0 := by
    simp [Mat4.mul, translationMat, rotationMat, scaleMat]
  have h12 : (((translationMat tx ty tz).mul (rotationMat r)).mul
      (scaleMat sx sy sz)).m12 = 0 := by
    simp [Mat4.mul, translationMat, rotationMat, scaleMat]
  have h22 : (((translationMat tx ty tz).mul (rotationMat r)).mul
      (scaleMat sx sy sz)).m22 = sz := by
    simp [Mat4.mul, translationMat, rotationMat, scaleMat]
  unfold extract_scale_factors
  rw [h00, h10, h01, h11, h02, h12, h22]
  simp only [Prod.mk.injEq]
  refine ⟨?_, ?_, ?_⟩
  · rw [show (Real.cos r * sx) ^ 2 + (Real.sin r * sx) ^ 2 = sx ^ 2 by
      linear_combination sx ^ 2 * Real.cos_sq_add_sin_sq r]
    exact Real.sqrt_sq hx
  · rw [show (-Real.sin r * sy) ^ 2 + (Real.cos r * sy) ^ 2 = sy ^ 2 by
      linear_combination sy ^ 2 * Real.cos_sq_add_sin_sq r]
    exact Real.sqrt_sq hy
  · rw [show (0 : ℝ) ^ 2 + 0 ^ 2 + sz ^ 2 = sz ^ 2 by ring]
    exact Real.sqrt_sq hz

/-- C6: for every INSERT placement whose per-axis scale factors are
non-negative, composing the transform as Translation, then z-rotation
by the placement angle in degrees converted to radians, then Scale, and
recovering the scale via the column-norm extraction returns exactly the
original (sx, sy, sz). -/
theorem c6_scale_roundtrip (e : EntityCore)
    (hx : 0 ≤ e.xscale.getD 1) (hy : 0 ≤ e.yscale.getD 1)
    (hz : 0 ≤ e.zscale.getD 1) :
    extract_scale_factors (create_transformation_matrix e) =
      (e.xscale.getD 1, e.yscale.getD 1, e.zscale.getD 1) :=
  extract_scale_TRS (e.insert.getD (0, 0, 0)).1 (e.insert.getD (0, 0, 0)).2.1
    (e.insert.getD (0, 0, 0)).2.2 ((e.rotation.getD 0) * (Real.pi / 180))
    (e.xscale.getD 1) (e.yscale.getD 1) (e.zscale.getD 1) hx hy hz

theorem c6_scale_roundtrip_witness :
    (0 : ℝ) ≤ insertEnt.core.xscale.getD 1 ∧
    extract_scale_factors (create_transformation_matrix insertEnt.core) =
      (insertEnt.core.xscale.getD 1, insertEnt.core.yscale.getD 1,
        insertEnt.core.zscale.getD 1) :=
  ⟨by simp [insertEnt], c6_scale_roundtrip insertEnt.core
    (by simp [insertEnt]) (by simp [insertEnt]) (by simp [insertEnt])⟩

theorem transform_point_identity (p : Vec3R) :
    transform_point p Mat4.identity = p := by
  simp [transform_point, Mat4.identity]

theorem extract_scale_identity :
    extract_scale_factors Mat4.identity = (1, 1, 1) := by
  norm_num [extract_scale_factors, Mat4.identity, Real.sqrt_one]

theorem not_is_scaled_identity :
    ¬ is_scaledR (extract_scale_factors Mat4.identity) := by
  rw [extract_scale_identity]
  simp [is_scaledR, iscloseR]

theorem transform_entity_identity_fields (e : EntityCore) :
    (transform_entity_to_absolute e Mat4.identity).insert = e.insert ∧
    (transform_entity_to_absolute e Mat4.identity).center = e.center ∧
    (transform_entity_to_absolute e Mat4.identity).start = e.start ∧
    (transform_entity_to_absolute e Mat4.identity).endp = e.endp ∧
    (transform_entity_to_absolute e Mat4.identity).location = e.location ∧
    (transform_entity_to_absolute e Mat4.identity).base_point = e.base_point ∧
    (transform_entity_to_absolute e Mat4.identity).vertices = e.vertices ∧
    (transform_entity_to_absolute e Mat4.identity).radius = e.radius ∧
    (transform_entity_to_absolute e Mat4.identity).height = e.height := by
  have hns : ¬ is_scaledR (extract_scale_factors Mat4.identity) :=
    not_is_scaled_identity
  refine ⟨?_, ?_, ?_, ?_, ?_, ?_, ?_, ?_, ?_⟩ <;>
    simp [transform_entity_to_absolute, transform_point_identity, hns,
      Prod.mk.eta]

/-- C7: for an INSERT in the modelspace whose block resolves, the
expansion converts every block entity except ATTDEF through the
insert's full matrix, tagging it with the owning insert's provenance
(block name, insertion point, rotation, scale), and converts every
attached ATTRIB through the identity matrix with the attrib provenance
marker — and the identity transform leaves all coordinate, vertex and
size attributes of the ATTRIB unchanged; everything so produced is part
of the document expansion. -/
theorem c7_attrib_identity_expansion (doc : DocR) (ent : DxfEntity)
    (hm : ent ∈ doc.msp) (ht : ent.core.etype = "INSERT") (bname : String)
    (ip : Vec3R) (bents : List EntityCore) (hn : ent.core.name = some bname)
    (hip : ent.core.insert = some ip)
    (hb : doc.blocks.lookup bname = some bents) :
    expandInsert doc ent =
      (bents.filter (fun be => be.etype ≠ "ATTDEF")).map (fun be =>
        { transform_entity_to_absolute be (create_transformation_matrix ent.core) with
            insert_info := some (.blockEnt bname ip (ent.core.rotation.getD 0)
              (ent.core.xscale.getD 1, ent.core.yscale.getD 1,
                ent.core.zscale.getD 1)) }) ++
      ent.attribs.map (fun ab =>
        { transform_entity_to_absolute ab Mat4.identity with
            insert_info := some (.insertAttrib bname ip) }) ∧
    (∀ ab : EntityCore,
      (transform_entity_to_absolute ab Mat4.identity).insert = ab.insert ∧
      (transform_entity_to_absolute ab Mat4.identity).center = ab.center ∧
      (transform_entity_to_absolute ab Mat4.identity).start = ab.start ∧
      (transform_entity_to_absolute ab Mat4.identity).endp = ab.endp ∧
      (transform_entity_to_absolute ab Mat4.identity).location = ab.location ∧
      (transform_entity_to_absolute ab Mat4.identity).base_point = ab.base_point ∧
      (transform_entity_to_absolute ab Mat4.identity).vertices = ab.vertices ∧
      (transform_entity_to_absolute ab Mat4.identity).radius = ab.radius ∧
      (transform_entity_to_absolute ab Mat4.identity).height = ab.height) ∧
    (∀ a ∈ expandInsert doc ent, a ∈ expand_insert_entities doc) := by
  refine ⟨?_, fun ab => transform_entity_identity_fields ab, ?_⟩
  · simp [expandInsert, ht, hn, hip, hb]
  · intro a ha
    unfold expand_insert_entities
    exact List.mem_flatMap.mpr ⟨ent, hm, ha⟩

theorem c7_attrib_identity_expansion_witness :
    insertEnt ∈ docW.msp ∧
    expandInsert docW insertEnt =
      ([blockLineCore, attdefCore].filter (fun be => be.etype ≠ "ATTDEF")).map
        (fun be =>
          { transform_entity_to_absolute be
              (create_transformation_matrix insertEnt.core) with
              insert_info := some (.blockEnt "B1" (100, 100, 0)
                (insertEnt.core.rotation.getD 0)
                (insertEnt.core.xscale.getD 1, insertEnt.core.yscale.getD 1,
                  insertEnt.core.zscale.getD 1)) }) ++
      insertEnt.attribs.map (fun ab =>
        { transform_entity_to_absolute ab Mat4.identity with
            insert_info := some (.insertAttrib "B1" (100, 100, 0)) }) :=
  ⟨List.mem_singleton.mpr rfl,
    (c7_attrib_identity_expansion docW insertEnt (List.mem_singleton.mpr rfl)
      rfl "B1" (100, 100, 0) [blockLineCore, attdefCore] rfl rfl rfl).1⟩
